import Mathlib

/-!
Verification development for the batch media extractor `yt_avextractor.py`
(single-file Python program, v1.19).

The Python source is shallowly embedded below:
pure text-processing helpers (`speed_to_bytes_per_second`, `size_to_bytes`,
the ffmpeg progress handler's percent computation) become Lean functions on
`List Char` / `String`, with Python floats modelled as exact rationals; the
per-item orchestration loop of `main` (probe, download retries, conversion
retries, failure ledger, error counter) becomes an explicit state-passing
step function driven by oracles for the external process results; the
SIGINT cleanup path becomes a function on a filesystem modelled as a list
of paths.  Exceptions are modelled with `Except`/`Option`.
-/

/-! ## Character and list helpers -/

/-- Uppercasing of a single character, as Python `str.upper` acts on ASCII. -/
def charUpper (c : Char) : Char :=
  if 'a' ≤ c ∧ c ≤ 'z' then Char.ofNat (c.toNat - 32) else c

/-- Uppercase a whole character list. -/
def upperL (l : List Char) : List Char := l.map charUpper

/-- ASCII whitespace, as matched by Python `\s` and stripped by `str.strip`. -/
def isPySpace (c : Char) : Bool :=
  c = ' ' || c = '\t' || c = '\n' || c = '\r' || c = '\x0b' || c = '\x0c'

/-- Characters matched by the regex class `[\d.]`. -/
def isDigitDot (c : Char) : Bool := c.isDigit || c = '.'

/-- Greedy take of a maximal run satisfying `p` (regex `X*` / `X+` munching),
returning the run and the remainder. -/
def munchWhile (p : Char → Bool) : List Char → List Char × List Char
  | [] => ([], [])
  | c :: cs =>
    if p c then
      let r := munchWhile p cs
      (c :: r.1, r.2)
    else ([], c :: cs)

/-- Does `hay` start with `needle`? -/
def startsL : List Char → List Char → Bool
  | [], _ => true
  | _ :: _, [] => false
  | c :: cs, d :: ds => c = d && startsL cs ds

/-- Does `l` end with `suffix`? -/
def endsL (l suffix : List Char) : Bool := startsL suffix.reverse l.reverse

/-- Does `hay` contain `needle` as a contiguous substring (Python `in`)? -/
def containsSub (hay needle : List Char) : Bool :=
  startsL needle hay ||
    match hay with
    | [] => false
    | _ :: t => containsSub t needle

/-- Python `str.strip()` restricted to ASCII whitespace. -/
def pyStrip (l : List Char) : List Char :=
  ((l.dropWhile isPySpace).reverse.dropWhile isPySpace).reverse

/-- Python `str.split(sep)` for a one-character separator: every occurrence
separates, empty pieces are kept. -/
def splitChar (c : Char) : List Char → List (List Char)
  | [] => [[]]
  | x :: xs =>
    let r := splitChar c xs
    if x = c then [] :: r
    else
      match r with
      | [] => [[x]]
      | y :: ys => (x :: y) :: ys

/-- Numeric value of a digit string, most significant digit first. -/
def natOfDigits (l : List Char) : ℕ :=
  l.foldl (fun a c => 10 * a + (c.toNat - '0'.toNat)) 0

/-! ## Python numeric-literal parsing

`float(...)` and `int(...)` raise `ValueError` on ill-formed strings; the
parsers below return `none` in exactly that case.  Floating point values are
modelled as exact rationals. -/

/-- No two consecutive underscores anywhere in the list. -/
def noDoubleUnderscore : List Char → Bool
  | '_' :: '_' :: _ => false
  | _ :: rest => noDoubleUnderscore rest
  | [] => true

/-- A well-formed digit run of a Python numeric literal: nonempty, made of
digits and underscores, starting and ending with a digit, underscores only
singly and between digits. -/
def runOk (l : List Char) : Bool :=
  (match l with | c :: _ => c.isDigit | [] => false) &&
  (match l.getLast? with | some c => c.isDigit | none => false) &&
  l.all (fun c => c.isDigit || c = '_') &&
  noDoubleUnderscore l

/-- Value of a digit run, ignoring underscores. -/
def runVal (l : List Char) : ℕ := natOfDigits (l.filter Char.isDigit)

/-- Number of digits of a digit run (underscores ignored). -/
def runDigits (l : List Char) : ℕ := (l.filter Char.isDigit).length

/-- Split at the first occurrence of `c`; `none` when `c` does not occur. -/
def splitFirst (c : Char) : List Char → Option (List Char × List Char)
  | [] => none
  | x :: xs =>
    if x = c then some ([], xs)
    else (splitFirst c xs).map (fun p => (x :: p.1, p.2))

/-- Mantissa of a Python float literal (already uppercased, sign removed):
`digits`, `digits.`, `.digits` or `digits.digits`, underscores allowed inside
each digit run. -/
def mantissaVal (l : List Char) : Option ℚ :=
  match splitFirst '.' l with
  | none => if runOk l then some ((runVal l : ℚ)) else none
  | some (ip, fp) =>
    if (ip.isEmpty || runOk ip) && (fp.isEmpty || runOk fp) &&
        !(ip.isEmpty && fp.isEmpty) then
      some ((runVal ip : ℚ) + (runVal fp : ℚ) / (10 : ℚ) ^ runDigits fp)
    else none

/-- Exponent part of a Python float literal (after the `E`). -/
def expVal (l : List Char) : Option ℤ :=
  match l with
  | '+' :: r => if runOk r then some ((runVal r : ℤ)) else none
  | '-' :: r => if runOk r then some (-(runVal r : ℤ)) else none
  | r => if runOk r then some ((runVal r : ℤ)) else none

/-- Decimal (non-inf, non-nan) Python float literal body without sign. -/
def decimalVal (l : List Char) : Option ℚ :=
  match splitFirst 'E' l with
  | none => mantissaVal l
  | some (m, e) =>
    match mantissaVal m, expVal e with
    | some mv, some ev => some (mv * (10 : ℚ) ^ ev)
    | _, _ => none

/-- Result of a Python `float(...)` call: finite values carried as rationals,
plus the non-finite values `float(...)` can also produce. -/
inductive PyF where
  | fin (q : ℚ)
  | pinf
  | ninf
  | nan
deriving DecidableEq

/-- Body of `float(...)` after whitespace stripping, uppercasing and sign
removal. -/
def pyFloatBody (l : List Char) (neg : Bool) : Option PyF :=
  if l = ['I', 'N', 'F'] || l = ['I', 'N', 'F', 'I', 'N', 'I', 'T', 'Y'] then
    some (if neg then PyF.ninf else PyF.pinf)
  else if l = ['N', 'A', 'N'] then some PyF.nan
  else (decimalVal l).map (fun q => PyF.fin (if neg then -q else q))

/-- Python `float(s)`; `none` models the `ValueError` it raises. -/
def pyFloatStr (s : String) : Option PyF :=
  match upperL (pyStrip s.data) with
  | '+' :: r => pyFloatBody r false
  | '-' :: r => pyFloatBody r true
  | r => pyFloatBody r false

/-- Python `int(s)` in base 10; `none` models the `ValueError` it raises. -/
def pyIntZ (s : String) : Option ℤ :=
  match pyStrip s.data with
  | '+' :: r => if runOk r then some ((runVal r : ℤ)) else none
  | '-' :: r => if runOk r then some (-(runVal r : ℤ)) else none
  | r => if runOk r then some ((runVal r : ℤ)) else none

/-- `float(tok)` applied to a token captured by the regex group `([\d.]+)`:
such a token is made of digits and dots only, and is a valid float literal
exactly when it has at least one digit and at most one dot. -/
def pyFloatTok (tok : List Char) : Option ℚ :=
  if tok.any Char.isDigit && tok.count '.' ≤ 1 then
    let ip := tok.takeWhile (fun c => c ≠ '.')
    let fp := (tok.dropWhile (fun c => c ≠ '.')).drop 1
    some ((natOfDigits ip : ℚ) + (natOfDigits fp : ℚ) / (10 : ℚ) ^ fp.length)
  else none

/-! ## Unit Converter: `speed_to_bytes_per_second` and `size_to_bytes`

Source lines 134-168.  The speed function matches the regex
`([\d.]+)\s*([KMGT]?I?B)?/S` against the uppercased input (`re.match`:
anchored at the start, trailing text allowed); the size function matches
`([\d.]+)([KMGT]?)(?:i?B)?`, falling back to a bare `float(...)` call with
its `ValueError` converted to `0.0`.  Note that inside the speed regex's
optional unit group the final `B` is mandatory. -/

def isKMGT (c : Char) : Bool := c = 'K' || c = 'M' || c = 'G' || c = 'T'

/-- The ways the optional group `([KMGT]?I?B)?` can match at the head of `l`,
in the regex engine's greedy backtracking order (longest alternative first,
the empty match last); each candidate is the captured unit (or `none` for no
participation) with the remaining input. -/
def unitCandidates (l : List Char) : List (Option (List Char) × List Char) :=
  (match l with
   | c1 :: c2 :: c3 :: rest =>
     if isKMGT c1 && c2 = 'I' && c3 = 'B' then [(some [c1, c2, c3], rest)] else []
   | _ => []) ++
  (match l with
   | c1 :: c2 :: rest =>
     if isKMGT c1 && c2 = 'B' then [(some [c1, c2], rest)] else []
   | _ => []) ++
  (match l with
   | c1 :: c2 :: rest =>
     if c1 = 'I' && c2 = 'B' then [(some [c1, c2], rest)] else []
   | _ => []) ++
  (match l with
   | c1 :: rest => if c1 = 'B' then [(some [c1], rest)] else []
   | _ => []) ++
  [(none, l)]

/-- `re.match(r'([\d.]+)\s*([KMGT]?I?B)?/S', l)`: the numeric token and the
captured unit group.  The runs `[\d.]+` and `\s*` are maximal-munch: no
character they accept can start the unit group or the `/S` literal, so the
engine never backtracks into them, and the unit group is resolved by trying
its alternatives in greedy order against the mandatory `/S` that follows. -/
def speedMatch (l : List Char) : Option (List Char × Option (List Char)) :=
  let m1 := munchWhile isDigitDot l
  if m1.1.isEmpty then none
  else
    let m2 := munchWhile isPySpace m1.2
    ((unitCandidates m2.2).find? (fun cand => startsL ['/', 'S'] cand.2)).map
      (fun cand => (m1.1, cand.1))

/-- `unit.startswith` dispatch of the speed converter (source lines 140-144);
a missing or non-prefixed unit leaves the value in plain bytes. -/
def unit_factor_speed (u : Option (List Char)) : ℚ :=
  match u with
  | some (c :: _) =>
    if c = 'K' then 1024
    else if c = 'M' then 1024 ^ 2
    else if c = 'G' then 1024 ^ 3
    else if c = 'T' then 1024 ^ 4
    else 1
  | _ => 1

/-- Source lines 134-145.  `Except.error ()` models the uncaught `ValueError`
raised by `float(value)` when the captured numeric token is ill-formed. -/
def speed_to_bytes_per_second (s : String) : Except Unit ℚ :=
  if s.data.isEmpty then Except.ok 0
  else
    match speedMatch (upperL s.data) with
    | some (tok, u) =>
      match pyFloatTok tok with
      | some v => Except.ok (v * unit_factor_speed u)
      | none => Except.error ()
    | none => Except.ok 0

/-- `re.match(r'([\d.]+)([KMGT]?)(?:i?B)?', l)`: numeric token and the
optional one-letter unit.  The trailing non-capturing group never affects
the result. -/
def sizeMatch (l : List Char) : Option (List Char × Option Char) :=
  let m1 := munchWhile isDigitDot l
  if m1.1.isEmpty then none
  else
    match m1.2 with
    | c :: _ => if isKMGT c then some (m1.1, some c) else some (m1.1, none)
    | [] => some (m1.1, none)

/-- `unit == 'K'` dispatch of the size converter (source lines 158-162). -/
def unit_factor_size (u : Option Char) : ℚ :=
  match u with
  | some 'K' => 1024
  | some 'M' => 1024 ^ 2
  | some 'G' => 1024 ^ 3
  | some 'T' => 1024 ^ 4
  | _ => 1

/-- Source lines 147-168.  The regex branch returns the scaled value or
raises (`Except.error ()`) on an ill-formed numeric token; when the regex
does not match, `float(size_str)` is tried with `ValueError` mapped to
`0.0`. -/
def size_to_bytes (s : String) : Except Unit PyF :=
  if s.data.isEmpty then Except.ok (PyF.fin 0)
  else
    match sizeMatch (upperL s.data) with
    | some (tok, u) =>
      match pyFloatTok tok with
      | some v => Except.ok (PyF.fin (v * unit_factor_size u))
      | none => Except.error ()
    | none =>
      match pyFloatStr s with
      | some f => Except.ok f
      | none => Except.ok (PyF.fin 0)

/-! ## Conversion progress handler: percent computation

Source lines 412-452 (`conversion_progress_handler`).  The handler
accumulates `key=value` lines into a dict; a line containing `out_time_us=`
completes a tick, on which the percent is computed as
`min(100.0, (us / (total_duration * 1_000_000)) * 100)` when
`total_duration > 0`, and `0` otherwise (source line 434).  The
`last_update` debounce (source line 419) only applies in the `--min` /
compact display modes and drops render calls; the percent computation below
models the handler's complete-tick computation. -/

/-- Source line 434: the percent computed for a complete transcode tick. -/
def conv_percent (total_duration : ℚ) (us : ℤ) : ℚ :=
  if 0 < total_duration then min 100 (((us : ℚ) / (total_duration * 1000000)) * 100)
  else 0

/-- `state[kv[0]] = kv[1]` on a dict modelled as an association list. -/
def assocSet (st : List (String × String)) (k v : String) : List (String × String) :=
  if st.any (fun p => p.1 = k) then st.map (fun p => if p.1 = k then (k, v) else p)
  else st ++ [(k, v)]

/-- `state.get(k, d)`. -/
def assocGetD (st : List (String × String)) (k d : String) : String :=
  match st.find? (fun p => p.1 = k) with
  | some p => p.2
  | none => d

/-- Source lines 414-415: `kv = line.strip().split('=')`, stored only when it
has exactly two fields. -/
def kvUpdate (st : List (String × String)) (line : String) : List (String × String) :=
  match splitChar '=' (pyStrip line.data) with
  | [k, v] => assocSet st (String.mk k) (String.mk v)
  | _ => st

/-- The initial ffmpeg tick state (source line 591); the `last_update`
throttle clock entry is presentation-layer and kept out of the dict model. -/
def ffInit : List (String × String) :=
  [("total_size", "0"), ("out_time", "0:00:00"), ("out_time_us", "0")]

/-- One line of `conversion_progress_handler`: update the tick state, and on
arrival of the `out_time_us` key (substring test, source line 417) report the
computed percent for the completed tick.  The emitted value is
`some (some p)` for a reported percent, `some none` when `int(...)` on the
stored `out_time_us` raises, and `none` when the line completes no tick. -/
def conv_process_line (total_duration : ℚ) (st : List (String × String))
    (line : String) : List (String × String) × Option (Option ℚ) :=
  let st1 := kvUpdate st line
  if containsSub line.data "out_time_us=".data then
    match pyIntZ (assocGetD st1 "out_time_us" "0") with
    | some us => (st1, some (some (conv_percent total_duration us)))
    | none => (st1, some none)
  else (st1, none)

/-! ## Output-path construction

Source lines 513-517: the probed title is sanitized by deleting the
characters of the regex class `[\\/*?:"<>|]`, the extension is `.mp4` for a
video format selection and `.mp3` otherwise, and the final path is
`destination_dir / (f"{video_title}{ext}" if not args.output else
args.output)` — a falsy (absent or empty) `-o` override selects the
title-based name, and a given override is used verbatim. -/

/-- The command-line options that the embedded fragments of `main` consult. -/
structure Args where
  output : Option String
  skip : Bool
  overwrite : Bool
  mp3fast : Bool
  mp3slow : Bool
  mono : Bool
  mp4fast : Bool
  mp41080 : Bool
  mp4480 : Bool
  retries : ℕ
  summarize : Bool

/-- Characters deleted from titles (regex `[\\/*?:"<>|]`, source line 513). -/
def ILLEGAL_FILENAME_CHARS : List Char :=
  ['\\', '/', '*', '?', ':', '"', '<', '>', '|']

/-- `re.sub(r'[\\/*?:"<>|]', "", title)`. -/
def sanitize_title (t : String) : String :=
  String.mk (t.data.filter (fun c => !ILLEGAL_FILENAME_CHARS.contains c))

/-- Source line 515: `any([args.mp4fast, args.mp41080, args.mp4480])`. -/
def is_video (a : Args) : Bool := a.mp4fast || a.mp41080 || a.mp4480

/-- Source line 516: `'.mp4' if is_video else '.mp3'`. -/
def fmt_ext (a : Args) : String := if is_video a then ".mp4" else ".mp3"

/-- `pathlib.Path dir / name`: an absolute right operand replaces the left. -/
def pathJoin (dir name : String) : String :=
  if startsL ['/'] name.data then name else dir ++ "/" ++ name

/-- Source line 517, the name component: a falsy override (`None` or `""`)
picks the sanitized-title name with the policy extension, otherwise the
override string verbatim. -/
def final_filename (a : Args) (video_title : String) : String :=
  match a.output with
  | some o => if o = "" then video_title ++ fmt_ext a else o
  | none => video_title ++ fmt_ext a

/-- Source line 517: the full final output path (`video_title` is the
already-sanitized title). -/
def final_filepath (dst : String) (a : Args) (video_title : String) : String :=
  pathJoin dst (final_filename a video_title)

/-! ## Per-item pipeline of `main`

Source lines 487-615.  External process results are supplied by oracles:
`probe` is the metadata dump (`None` models any probe failure), `dl k` /
`cv k` the exit status of the download / ffmpeg process spawned on loop
iteration `k`, and `temp_found k` whether the glob for the temporary
download artifact finds a file after a claimed-successful download.  The
filesystem is a list of paths.  The state tracks the failure ledger
(`failed_urls`), `error_count`, the cleanup registry
(`current_files_to_cleanup`) and counters for spawned stage attempts,
`time.sleep(5)` backoffs and `finish_summary` completions. -/

structure Oracles where
  probe : Option String
  dl : ℕ → Bool
  cv : ℕ → Bool
  temp_found : ℕ → Bool
  temp_name : String

structure RunSt where
  fs : List String
  cleanup : List String
  failures : List String
  errors : ℕ
  successes : ℕ
  dl_attempts : ℕ
  cv_attempts : ℕ
  probe_calls : ℕ
  sleeps : ℕ

/-- Add a path to the filesystem. -/
def fsAdd (fs : List String) (p : String) : List String :=
  if p ∈ fs then fs else p :: fs

/-- `os.remove` (missing files tolerated, source lines 602-603). -/
def fsRemove (fs : List String) (p : String) : List String :=
  fs.filter (fun q => q != p)

/-- The audio-policy retry loop, source lines 566-615, called with
`remaining = args.retries` and `attempt = 0` so that `remaining = r + 1`
holds exactly when `attempt < args.retries`, and `r = 0` exactly on the
final attempt (`attempt == args.retries - 1`).  Faithful control flow:
* download success → glob; if the temp file is found it is registered for
  cleanup and ffmpeg runs; on ffmpeg success `finish_summary` runs and the
  loop `break`s BEFORE the `os.remove(actual_input)` of line 602, so the
  temp artifact stays on disk; on ffmpeg failure the backoff (or, on the
  final attempt, the ledger append) happens, the temp file is removed, and
  the loop continues;
* glob empty → ledger append and `break` (lines 604-607);
* download failure → backoff message and sleep (or ledger append on the
  final attempt) and then the unconditional `break` of line 615, so no
  second download attempt ever runs. -/
def audio_loop (o : Oracles) (url fin : String) : ℕ → ℕ → RunSt → RunSt
  | 0, _, st => st
  | r + 1, attempt, st =>
    let st1 := { st with dl_attempts := st.dl_attempts + 1 }
    if o.dl attempt then
      if o.temp_found attempt then
        let st2 := { st1 with
          fs := fsAdd st1.fs o.temp_name,
          cleanup := st1.cleanup ++ [o.temp_name],
          cv_attempts := st1.cv_attempts + 1 }
        if o.cv attempt then
          { st2 with fs := fsAdd st2.fs fin, successes := st2.successes + 1 }
        else
          let st3 :=
            match r with
            | 0 => { st2 with
                failures := st2.failures ++ [url ++ " | REASON: Conversion to MP3 failed."],
                errors := st2.errors + 1 }
            | _ + 1 => { st2 with sleeps := st2.sleeps + 1 }
          audio_loop o url fin r (attempt + 1) { st3 with fs := fsRemove st3.fs o.temp_name }
      else
        { st1 with
          failures := st1.failures ++ [url ++ " | REASON: Downloaded temp file missing."],
          errors := st1.errors + 1 }
    else
      match r with
      | 0 => { st1 with
          failures := st1.failures ++ [url ++ " | REASON: Download failed (Audio)."],
          errors := st1.errors + 1 }
      | _ + 1 => { st1 with sleeps := st1.sleeps + 1 }

/-- The video-policy retry loop, source lines 546-564: one merged download per
attempt; success runs `finish_summary` and `break`s; failure backs off (or
appends to the ledger on the final attempt) and lets the `for` loop continue
to the next attempt. -/
def video_loop (o : Oracles) (url fin : String) : ℕ → ℕ → RunSt → RunSt
  | 0, _, st => st
  | r + 1, attempt, st =>
    let st1 := { st with dl_attempts := st.dl_attempts + 1 }
    if o.dl attempt then
      { st1 with fs := fsAdd st1.fs fin, successes := st1.successes + 1 }
    else
      let st2 :=
        match r with
        | 0 => { st1 with
            failures := st1.failures ++ [url ++ " | REASON: Download failed (Video)."],
            errors := st1.errors + 1 }
        | _ + 1 => { st1 with sleeps := st1.sleeps + 1 }
      video_loop o url fin r (attempt + 1) st2

/-- One iteration of the URL loop of `main` (source lines 487-615): probe the
metadata (non-zero exit appends `Metadata fetch failed.` to the ledger and
continues, lines 519-523), compute the final path from the sanitized title or
the override, then run the retry loop of the selected policy.  No
existing-file or skip/overwrite check occurs anywhere before the stages. -/
def process_item (a : Args) (dst : String) (o : Oracles) (url : String)
    (st : RunSt) : RunSt :=
  let st1 := { st with probe_calls := st.probe_calls + 1 }
  match o.probe with
  | none =>
    { st1 with
      failures := st1.failures ++ [url ++ " | REASON: Metadata fetch failed."],
      errors := st1.errors + 1 }
  | some rawTitle =>
    let fin := final_filepath dst a (sanitize_title rawTitle)
    if is_video a then video_loop o url fin a.retries 0 st1
    else audio_loop o url fin a.retries 0 st1

/-- The whole batch, strictly sequential (source line 487). -/
def run_batch (a : Args) (dst : String) (items : List (String × Oracles))
    (st : RunSt) : RunSt :=
  items.foldl (fun s it => process_item a dst it.2 it.1 s) st

/-- Source line 648: `sys.exit(error_count)`. -/
def exit_code (st : RunSt) : ℕ := st.errors

/-- The all-zero initial state over a given filesystem (source lines 86-99:
the trackers start empty). -/
def RunSt.init (fs : List String) : RunSt :=
  { fs := fs, cleanup := [], failures := [], errors := 0, successes := 0,
    dl_attempts := 0, cv_attempts := 0, probe_calls := 0, sleeps := 0 }

/-! ## Cancellation path

Source lines 207-224 and 307-311: the SIGINT handler prints the abort
notice, kills the current subprocess group (an external effect outside the
filesystem model), removes every file registered in
`current_files_to_cleanup` that exists, and calls `os._exit(1)`. -/

/-- Source lines 307-311: remove each registered file that exists. -/
def cleanup_incomplete_files (fs cleanup : List String) : List String :=
  fs.filter (fun p => !(cleanup.contains p))

/-- Filesystem effect of `signal_handler` (via `terminate_process_tree`). -/
def signal_handler_fs (fs cleanup : List String) : List String :=
  cleanup_incomplete_files fs cleanup

/-- Source line 222: `os._exit(1)`. -/
def signal_handler_exit : ℕ := 1

/-- The characters the regex class `[\d.]` can capture (ASCII digits and the
dot), as an explicit list for case analysis. -/
def digitDotChars : List Char :=
  ['0', '1', '2', '3', '4', '5', '6', '7', '8', '9', '.']

/-! ## Concrete fixtures used by the claim theorems -/

/-- An audio-policy invocation (default `-mp3high` tier) with `-ret 3`. -/
def argsAudioR3 : Args :=
  { output := none, skip := false, overwrite := false, mp3fast := false,
    mp3slow := false, mono := false, mp4fast := false, mp41080 := false,
    mp4480 := false, retries := 3, summarize := false }

/-- The same audio-policy invocation with `-ret 2`. -/
def argsAudioR2 : Args := { argsAudioR3 with retries := 2 }

/-- The audio-policy invocation with an `-o song` override. -/
def argsOverride : Args := { argsAudioR3 with output := some "song" }

/-- The video-policy invocation (`-mp4fast`) with `-ret 3`. -/
def argsVideoR3 : Args := { argsAudioR3 with mp4fast := true }

/-- External world where the metadata probe succeeds and every download
attempt fails. -/
def oracleDlFail : Oracles :=
  { probe := some "Song Title", dl := fun _ => false, cv := fun _ => true,
    temp_found := fun _ => true, temp_name := "/out/temp_1000_1.webm" }

/-- External world where every stage succeeds at once. -/
def oracleAllOk : Oracles :=
  { probe := some "Song: Two", dl := fun _ => true, cv := fun _ => true,
    temp_found := fun _ => true, temp_name := "/out/temp_1000_1.webm" }

/-- External world where downloads succeed and every ffmpeg run fails. -/
def oracleCvFail : Oracles :=
  { probe := some "Song Title", dl := fun _ => true, cv := fun _ => false,
    temp_found := fun _ => true, temp_name := "/out/temp_1000_1.webm" }

/-! ## Claim C1 -/

/-- Claim C1: the bounded-retry property fails on the audio-policy download
stage.  With 3 configured attempts and an always-failing stage the claim
demands 3 attempts and one FailureRecord; the video download stage and the
conversion stage indeed behave that way (second and third conjunct blocks),
but the audio download stage hits the unconditional `break` of source line
615 right after the backoff, so it performs exactly ONE attempt, sleeps
once, and appends NO FailureRecord and increments no error counter. -/
theorem C1_audio_retry_break_evaluation :
    ((process_item argsAudioR3 "/out" oracleDlFail "u1" (RunSt.init [])).dl_attempts = 1 ∧
     (process_item argsAudioR3 "/out" oracleDlFail "u1" (RunSt.init [])).sleeps = 1 ∧
     (process_item argsAudioR3 "/out" oracleDlFail "u1" (RunSt.init [])).failures = [] ∧
     (process_item argsAudioR3 "/out" oracleDlFail "u1" (RunSt.init [])).errors = 0) ∧
    ((process_item argsVideoR3 "/out" oracleDlFail "u1" (RunSt.init [])).dl_attempts = 3 ∧
     (process_item argsVideoR3 "/out" oracleDlFail "u1" (RunSt.init [])).sleeps = 2 ∧
     (process_item argsVideoR3 "/out" oracleDlFail "u1" (RunSt.init [])).failures
       = ["u1 | REASON: Download failed (Video)."]) ∧
    ((process_item argsAudioR3 "/out" oracleCvFail "u1" (RunSt.init [])).cv_attempts = 3 ∧
     (process_item argsAudioR3 "/out" oracleCvFail "u1" (RunSt.init [])).sleeps = 2 ∧
     (process_item argsAudioR3 "/out" oracleCvFail "u1" (RunSt.init [])).failures
       = ["u1 | REASON: Conversion to MP3 failed."]) := by
  exact ⟨⟨rfl, rfl, rfl, rfl⟩, ⟨rfl, rfl, rfl⟩, ⟨rfl, rfl, rfl⟩⟩

/-! ## Claim C2 -/

/-- Claim C2: on the audio success path the temporary download artifact is
NOT deleted.  After a first-attempt successful download and transcode the
`break` of source line 594 jumps over the `os.remove(actual_input)` of line
602, so when the item's processing ends the temp artifact is still on disk
(it stays registered in the cleanup list, to be deleted only by a later
SIGINT), alongside the final artifact. -/
theorem C2_temp_artifact_survives_success :
    (process_item argsAudioR3 "/out" oracleAllOk "u1" (RunSt.init [])).successes = 1 ∧
    (process_item argsAudioR3 "/out" oracleAllOk "u1" (RunSt.init [])).fs
      = ["/out/Song Two.mp3", "/out/temp_1000_1.webm"] ∧
    "/out/temp_1000_1.webm" ∈
      (process_item argsAudioR3 "/out" oracleAllOk "u1" (RunSt.init [])).fs ∧
    (process_item argsAudioR3 "/out" oracleAllOk "u1" (RunSt.init [])).cleanup
      = ["/out/temp_1000_1.webm"] := by
  refine ⟨rfl, by decide, by decide, rfl⟩

/-! ## Claim C3 -/

/-- Claim C3: the skip policy does not exist in the code.  First conjunct:
the per-item pipeline is literally independent of the `--skip` flag (no code
path reads it).  Second conjunct: with `--skip` set and the final artifact
already present in the filesystem, the item still performs its metadata
probe and spawns a download attempt — not the zero external invocations the
claim requires. -/
theorem C3_skip_flag_never_consulted :
    (∀ (a : Args) (dst : String) (o : Oracles) (url : String) (st : RunSt),
      process_item { a with skip := true } dst o url st
        = process_item { a with skip := false } dst o url st) ∧
    ((process_item { argsAudioR3 with skip := true } "/out" oracleAllOk "u1"
        (RunSt.init [final_filepath "/out" argsAudioR3 (sanitize_title "Song: Two")])).probe_calls = 1 ∧
     (process_item { argsAudioR3 with skip := true } "/out" oracleAllOk "u1"
        (RunSt.init [final_filepath "/out" argsAudioR3 (sanitize_title "Song: Two")])).dl_attempts = 1) := by
  exact ⟨fun a dst o url st => rfl, rfl, rfl⟩

/-! ## Claim C4 -/

/-- Every ledger append in the audio retry loop is paired with exactly one
`error_count` increment: the loop preserves `errors = failures.length`. -/
lemma audio_loop_err_len (o : Oracles) (url fin : String) :
    ∀ (n attempt : ℕ) (st : RunSt), st.errors = st.failures.length →
      (audio_loop o url fin n attempt st).errors
        = (audio_loop o url fin n attempt st).failures.length := by
  intro n
  induction n with
  | zero =>
    intro attempt st h
    simpa only [audio_loop] using h
  | succ r ih =>
    intro attempt st h
    cases hdl : o.dl attempt with
    | false =>
      cases r with
      | zero => simp [audio_loop, hdl, h]
      | succ r2 => simp [audio_loop, hdl, h]
    | true =>
      cases htf : o.temp_found attempt with
      | false => simp [audio_loop, hdl, htf, h]
      | true =>
        cases hcv : o.cv attempt with
        | true => simp [audio_loop, hdl, htf, hcv, h]
        | false =>
          cases r with
          | zero => simp [audio_loop, hdl, htf, hcv, h]
          | succ r2 =>
            have step :
                audio_loop o url fin (r2 + 1 + 1) attempt st
                  = audio_loop o url fin (r2 + 1) (attempt + 1)
                      { st with
                        dl_attempts := st.dl_attempts + 1,
                        fs := fsRemove (fsAdd st.fs o.temp_name) o.temp_name,
                        cleanup := st.cleanup ++ [o.temp_name],
                        cv_attempts := st.cv_attempts + 1,
                        sleeps := st.sleeps + 1 } := by
              simp [audio_loop, hdl, htf, hcv]
            rw [step]
            exact ih _ _ h

/-- The video retry loop preserves `errors = failures.length` as well. -/
lemma video_loop_err_len (o : Oracles) (url fin : String) :
    ∀ (n attempt : ℕ) (st : RunSt), st.errors = st.failures.length →
      (video_loop o url fin n attempt st).errors
        = (video_loop o url fin n attempt st).failures.length := by
  intro n
  induction n with
  | zero =>
    intro attempt st h
    simpa only [video_loop] using h
  | succ r ih =>
    intro attempt st h
    cases hdl : o.dl attempt with
    | true => simp [video_loop, hdl, h]
    | false =>
      cases r with
      | zero => simp [video_loop, hdl, h]
      | succ r2 =>
        have step :
            video_loop o url fin (r2 + 1 + 1) attempt st
              = video_loop o url fin (r2 + 1) (attempt + 1)
                  { st with
                    dl_attempts := st.dl_attempts + 1,
                    sleeps := st.sleeps + 1 } := by
          simp [video_loop, hdl]
        rw [step]
        exact ih _ _ h

/-- One whole item preserves `errors = failures.length`. -/
lemma process_item_err_len (a : Args) (dst : String) (o : Oracles) (url : String)
    (st : RunSt) (h : st.errors = st.failures.length) :
    (process_item a dst o url st).errors
      = (process_item a dst o url st).failures.length := by
  cases hp : o.probe with
  | none => simp [process_item, hp, h]
  | some t =>
    cases hv : is_video a with
    | true =>
      simp only [process_item, hp, hv, if_true]
      exact video_loop_err_len _ _ _ _ _ _ h
    | false =>
      simp only [process_item, hp, hv, Bool.false_eq_true, if_false]
      exact audio_loop_err_len _ _ _ _ _ _ h

/-- The whole batch preserves `errors = failures.length`. -/
lemma run_batch_err_len (a : Args) (dst : String) :
    ∀ (items : List (String × Oracles)) (st : RunSt),
      st.errors = st.failures.length →
      (run_batch a dst items st).errors
        = (run_batch a dst items st).failures.length := by
  intro items
  induction items with
  | nil =>
    intro st h
    simpa only [run_batch, List.foldl_nil] using h
  | cons it rest ih =>
    intro st h
    simp only [run_batch, List.foldl_cons] at ih ⊢
    exact ih _ (process_item_err_len _ _ _ _ _ h)

/-- Claim C4, counterexample run: one audio item with `-ret 2` whose download
always fails.  The run completes normally, the item never succeeds (no
summary completion, no final artifact), yet the exit status is 0 and the
ledger is empty — because the audio download failure with an attempt
remaining breaks out of the loop before recording anything.  This refutes
both "exit status equals the count of permanently failed items" and "status
is 0 exactly when every item succeeded". -/
theorem C4_counterexample_silent_failure :
    exit_code (run_batch argsAudioR2 "/out" [("u1", oracleDlFail)] (RunSt.init [])) = 0 ∧
    (run_batch argsAudioR2 "/out" [("u1", oracleDlFail)] (RunSt.init [])).successes = 0 ∧
    (run_batch argsAudioR2 "/out" [("u1", oracleDlFail)] (RunSt.init [])).failures = [] ∧
    final_filepath "/out" argsAudioR2 (sanitize_title "Song Title") ∉
      (run_batch argsAudioR2 "/out" [("u1", oracleDlFail)] (RunSt.init [])).fs := by
  exact ⟨rfl, rfl, rfl, by decide⟩

/-- Claim C4 (amended): for every run that completes normally, the value
passed to `sys.exit` equals the number of FailureRecords appended to the
ledger (each recorded failure — metadata probe, exhausted video or
conversion retries, missing temp artifact, or a final-attempt audio download
failure — pairs exactly one ledger line with one error count); it is NOT in
general the number of permanently failed items, since an audio download
failure with attempts remaining terminates the item without any record. -/
theorem C4_exit_code_equals_ledger_length :
    ∀ (a : Args) (dst : String) (items : List (String × Oracles)) (fs0 : List String),
      exit_code (run_batch a dst items (RunSt.init fs0))
        = (run_batch a dst items (RunSt.init fs0)).failures.length := by
  intro a dst items fs0
  exact run_batch_err_len a dst items _ rfl

/-! ## Claim C5 -/

/-- A list starts with itself followed by anything. -/
lemma startsL_self_append : ∀ (l m : List Char), startsL l (l ++ m) = true := by
  intro l
  induction l with
  | nil => intro m; rfl
  | cons c cs ih => intro m; simp [startsL, ih]

/-- Appending a suffix makes `endsL` true. -/
lemma endsL_append (x e : List Char) : endsL (x ++ e) e = true := by
  simp only [endsL, List.reverse_append]
  exact startsL_self_append e.reverse x.reverse

/-- Claim C5, counterexample: with an audio tier and the override `song`, the
final path is `/d/song` — the override is used verbatim and the `.mp3`
extension the claim requires is NOT appended. -/
theorem C5_counterexample_override_extension :
    final_filepath "/d" argsOverride (sanitize_title "My Tune") = "/d/song" ∧
    endsL (final_filepath "/d" argsOverride (sanitize_title "My Tune")).data ".mp3".data
      = false := by
  exact ⟨rfl, rfl⟩

/-- Claim C5 (amended): for a successfully probed item, when no `-o` override
is given the final path is the destination joined with the title stripped of
the characters `\/*?:"<>|` plus the policy extension (`.mp4` for a video
tier, `.mp3` otherwise) — in particular the name then ends with the policy
extension; when a nonempty override is given, the final path is the
destination joined with the override verbatim, and no policy extension is
appended to it. -/
theorem C5_final_path_formula :
    ∀ (dst : String) (a : Args) (rawTitle : String),
      (a.output = none →
        final_filepath dst a (sanitize_title rawTitle)
          = pathJoin dst
              (String.mk (rawTitle.data.filter (fun c => !ILLEGAL_FILENAME_CHARS.contains c))
                ++ (if is_video a then ".mp4" else ".mp3")) ∧
        endsL (final_filename a (sanitize_title rawTitle)).data (fmt_ext a).data = true) ∧
      (∀ ovr : String, a.output = some ovr → ovr ≠ "" →
        final_filepath dst a (sanitize_title rawTitle) = pathJoin dst ovr) := by
  intro dst a rawTitle
  constructor
  · intro hnone
    constructor
    · simp [final_filepath, final_filename, hnone, sanitize_title, fmt_ext]
    · have hdata : (sanitize_title rawTitle ++ fmt_ext a).data
          = (sanitize_title rawTitle).data ++ (fmt_ext a).data := by
        simp [String.data_append]
      simp only [final_filename, hnone, hdata]
      exact endsL_append _ _
  · intro ovr hsome hne
    simp [final_filepath, final_filename, hsome, hne]

/-- Witness for C5: concrete instances of both branches of the amended path
formula. -/
theorem C5_final_path_formula_witness :
    final_filepath "/d" argsAudioR3 (sanitize_title "My:Tune")
        = pathJoin "/d"
            (String.mk ("My:Tune".data.filter (fun c => !ILLEGAL_FILENAME_CHARS.contains c))
              ++ (if is_video argsAudioR3 then ".mp4" else ".mp3")) ∧
    endsL (final_filename argsAudioR3 (sanitize_title "My:Tune")).data
        (fmt_ext argsAudioR3).data = true ∧
    final_filepath "/d" argsOverride (sanitize_title "My:Tune") = pathJoin "/d" "song" := by
  refine ⟨((C5_final_path_formula "/d" argsAudioR3 "My:Tune").1 rfl).1,
          ((C5_final_path_formula "/d" argsAudioR3 "My:Tune").1 rfl).2,
          (C5_final_path_formula "/d" argsOverride "My:Tune").2 "song" rfl (by decide)⟩

/-! ## Claim C6 -/

/-- Claim C6, counterexample: a complete transcode tick (arrival of
`out_time_us`) with known duration 0 does NOT report an indeterminate
percent — the handler computes and reports the definite percent value `0`
(rendered as `0.0%`). -/
theorem C6_counterexample_zero_duration_computed :
    (conv_process_line 0 ffInit "out_time_us=500000").2 = some (some 0) ∧
    conv_percent 0 500000 = 0 := by
  exact ⟨rfl, rfl⟩

/-- Claim C6 (amended): for a complete tick with known duration `d > 0` and
`out_time_us = us ≥ 0`, the computed percent equals
`(us / (d * 1_000_000)) * 100` clamped to `[0, 100]`, and equals exactly 100
when `us = d * 1_000_000`; when the known duration is 0 or unknown (the
probe defaults a missing duration to 0), the percent is computed as 0 rather
than reported indeterminate. -/
theorem C6_percent_clamped_formula :
    ∀ (d : ℚ) (us : ℕ),
      (0 < d →
        conv_percent d (us : ℤ) = max 0 (min 100 (((us : ℚ) * 100) / (d * 1000000))) ∧
        ((us : ℚ) = d * 1000000 → conv_percent d (us : ℤ) = 100)) ∧
      (d ≤ 0 → conv_percent d (us : ℤ) = 0) := by
  intro d us
  constructor
  · intro hd
    have hcast : (((us : ℤ) : ℚ)) = (us : ℚ) := by push_cast; ring
    constructor
    · rw [conv_percent, if_pos hd, hcast]
      have hd6 : (0 : ℚ) < d * 1000000 := by positivity
      have hnn : (0 : ℚ) ≤ ((us : ℚ) * 100) / (d * 1000000) := by positivity
      rw [max_eq_right (le_min (by norm_num) hnn), div_mul_eq_mul_div]
    · intro heq
      rw [conv_percent, if_pos hd, hcast, heq,
          div_self (by positivity : d * 1000000 ≠ 0)]
      norm_num
  · intro hle
    rw [conv_percent, if_neg (not_lt.mpr hle)]

/-- Witness for C6: the percent is exactly 100 at `out_time_us = d * 10^6`
for `d = 5`, and 0 for an unknown (zero) duration. -/
theorem C6_percent_clamped_formula_witness :
    conv_percent 5 ((5000000 : ℕ) : ℤ) = 100 ∧ conv_percent 0 ((7 : ℕ) : ℤ) = 0 := by
  refine ⟨((C6_percent_clamped_formula 5 5000000).1 (by norm_num)).2 (by norm_num),
          (C6_percent_clamped_formula 0 7).2 le_rfl⟩

/-! ## Claim C7 -/

/-- Claim C7, counterexample: the converters are NOT exception-free on every
input.  `size_to_bytes "."` matches the regex with the captured numeric
token `"."`, and `float(".")` raises `ValueError`, which the function does
not catch; likewise `speed_to_bytes_per_second "./s"`. -/
theorem C7_counterexample_dot_raises :
    size_to_bytes "." = Except.error () ∧
    speed_to_bytes_per_second "./s" = Except.error () := by
  exact ⟨rfl, rfl⟩

/-- Claim C7 (amended): the converters return a numeric byte count for every
input string EXCEPT those whose leading `[\d.]+` token matches the regex but
is not a valid float literal (no digit, or more than one dot, e.g. `"."` or
`"1.2.3"`), on which they raise `ValueError`; a rate token that fails the
rate pattern altogether still normalizes to 0. -/
theorem C7_raise_characterization :
    ∀ s : String,
      (speed_to_bytes_per_second s = Except.error () ↔
        ∃ tok u, speedMatch (upperL s.data) = some (tok, u) ∧ pyFloatTok tok = none) ∧
      (size_to_bytes s = Except.error () ↔
        ∃ tok u, sizeMatch (upperL s.data) = some (tok, u) ∧ pyFloatTok tok = none) ∧
      (speedMatch (upperL s.data) = none → speed_to_bytes_per_second s = Except.ok 0) := by
  intro s
  refine ⟨?_, ?_, ?_⟩
  · by_cases he : s.data.isEmpty
    · have hd : s.data = [] := by simpa using he
      rw [speed_to_bytes_per_second, if_pos he]
      constructor
      · intro h; exact absurd h (by simp)
      · rintro ⟨tok, u, hm, -⟩
        rw [hd] at hm
        exact absurd hm (by simp [speedMatch, munchWhile, upperL])
    · rw [speed_to_bytes_per_second, if_neg he]
      cases hm : speedMatch (upperL s.data) with
      | none => simp [hm]
      | some p =>
        obtain ⟨tok, u⟩ := p
        cases hf : pyFloatTok tok with
        | some v => simp [hm, hf]
        | none => simp [hm, hf]
  · by_cases he : s.data.isEmpty
    · have hd : s.data = [] := by simpa using he
      rw [size_to_bytes, if_pos he]
      constructor
      · intro h; exact absurd h (by simp)
      · rintro ⟨tok, u, hm, -⟩
        rw [hd] at hm
        exact absurd hm (by simp [sizeMatch, munchWhile, upperL])
    · rw [size_to_bytes, if_neg he]
      cases hm : sizeMatch (upperL s.data) with
      | none =>
        cases hff : pyFloatStr s with
        | none => simp [hm, hff]
        | some f => simp [hm, hff]
      | some p =>
        obtain ⟨tok, u⟩ := p
        cases hf : pyFloatTok tok with
        | some v => simp [hm, hf]
        | none => simp [hm, hf]
  · intro hm
    by_cases he : s.data.isEmpty
    · rw [speed_to_bytes_per_second, if_pos he]
    · rw [speed_to_bytes_per_second, if_neg he, hm]

/-- Witness for C7: a non-matching rate token normalizes to 0, and a
regex-matching token with two dots raises. -/
theorem C7_raise_characterization_witness :
    speed_to_bytes_per_second "abc" = Except.ok 0 ∧
    size_to_bytes "1.2.3MiB" = Except.error () := by
  refine ⟨(C7_raise_characterization "abc").2.2 (by rfl),
          ((C7_raise_characterization "1.2.3MiB").2.1).mpr
            ⟨"1.2.3".data, some 'M', by rfl, by rfl⟩⟩

/-! ## Claim C8 -/

/-- Maximal munch over a concatenation: when every token character satisfies
`p` and the remainder's head does not, the munch returns exactly the token. -/
lemma munchWhile_all (p : Char → Bool) :
    ∀ (tok rest : List Char), (∀ c ∈ tok, p c = true) →
      (∀ c, rest.head? = some c → p c = false) →
      munchWhile p (tok ++ rest) = (tok, rest) := by
  intro tok
  induction tok with
  | nil =>
    intro rest h1 h2
    cases rest with
    | nil => rfl
    | cons c cs => simp [munchWhile, h2 c rfl]
  | cons c cs ih =>
    intro rest h1 h2
    simp [munchWhile, h1 c (List.mem_cons_self c cs),
          ih rest (fun x hx => h1 x (List.mem_cons_of_mem c hx)) h2]

/-- Digit-or-dot characters satisfy the `[\d.]` class. -/
lemma isDigitDot_of_mem (c : Char) (h : c ∈ digitDotChars) : isDigitDot c = true := by
  fin_cases h <;> rfl

/-- Uppercasing fixes digit-or-dot tokens. -/
lemma upperL_digitDot (tok : List Char) (h : ∀ c ∈ tok, c ∈ digitDotChars) :
    upperL tok = tok := by
  induction tok with
  | nil => rfl
  | cons c cs ih =>
    have hc : charUpper c = c := by
      have hm := h c (List.mem_cons_self c cs)
      fin_cases hm <;> rfl
    simp [upperL, hc]
    exact ih (fun x hx => h x (List.mem_cons_of_mem c hx))

/-- A nonempty list is not `isEmpty`. -/
lemma tokne (tok : List Char) (hne : tok ≠ []) : tok.isEmpty = false := by
  cases tok with
  | nil => exact absurd rfl hne
  | cons c cs => rfl

/-- Reduction of the speed converter on `token ++ rest`: the whole outcome is
decided by which alternative of the optional unit group is followed by the
literal `/S`. -/
lemma speed_concat_val (tok rest urest : List Char) (q : ℚ)
    (hne : tok.isEmpty = false)
    (hq : pyFloatTok tok = some q)
    (hup : upperL (tok ++ rest) = tok ++ urest)
    (hmunch : munchWhile isDigitDot (tok ++ urest) = (tok, urest))
    (hsp : munchWhile isPySpace urest = ([], urest)) :
    speed_to_bytes_per_second (String.mk (tok ++ rest))
      = match (unitCandidates urest).find? (fun cand => startsL ['/', 'S'] cand.2) with
        | some cand => Except.ok (q * unit_factor_speed cand.1)
        | none => Except.ok 0 := by
  have hde : (String.mk (tok ++ rest)).data = tok ++ rest := rfl
  have hne2 : (tok ++ rest).isEmpty = false := by
    cases tok with
    | nil => simp at hne
    | cons c cs => rfl
  rw [speed_to_bytes_per_second, hde, if_neg (by simp [hne2]), hup]
  rw [speedMatch]
  simp only [hmunch, hne, hsp, Bool.false_eq_true, if_false]
  cases hfind : (unitCandidates urest).find? (fun cand => startsL ['/', 'S'] cand.2) with
  | none => simp [hfind]
  | some cand => simp [hfind, hq]

/-- The head of a cons list determines the head? value. -/
lemma head_false_of_concrete (p : Char → Bool) (d : Char) (t : List Char)
    (hd : p d = false) : ∀ c, (d :: t).head? = some c → p c = false := by
  intro c hc
  simp only [List.head?_cons, Option.some.injEq] at hc
  rwa [← hc]

/-- Claim C8, counterexample: the rate token `512K/s` does NOT normalize to
`512 * 1024 = 524288`; because the unit group `([KMGT]?I?B)?` requires the
trailing `B`, the bare `K` cannot be consumed, the regex fails to match, and
the converter returns 0. -/
theorem C8_counterexample_bare_prefix :
    speed_to_bytes_per_second "512K/s" = Except.ok 0 ∧
    speed_to_bytes_per_second "512K/s" ≠ Except.ok 524288 := by
  refine ⟨rfl, ?_⟩
  intro hcontra
  rw [show speed_to_bytes_per_second "512K/s" = Except.ok 0 from rfl] at hcontra
  exact absurd (Except.ok.inj hcontra) (by norm_num)

/-- Claim C8 (amended): for a rate token made of a numeric part (digits and
at most one dot) followed by a unit and `/s` (case-insensitive), the
converter drops the `/s` and scales by the power of 1024 of the K/M/G/T
prefix — but only when the unit ends in `B` (`KB`, `KiB`, bare `B`, or no
unit at all); a bare `K`/`M`/`G`/`T` prefix without `B` (e.g. `512K/s`)
fails the pattern and normalizes to 0 instead. -/
theorem C8_rate_unit_requires_B :
    ∀ (tok : List Char) (q : ℚ),
      tok ≠ [] → (∀ c ∈ tok, c ∈ digitDotChars) → pyFloatTok tok = some q →
      speed_to_bytes_per_second (String.mk (tok ++ "KiB/s".data)) = Except.ok (q * 1024) ∧
      speed_to_bytes_per_second (String.mk (tok ++ "KB/s".data)) = Except.ok (q * 1024) ∧
      speed_to_bytes_per_second (String.mk (tok ++ "K/s".data)) = Except.ok 0 ∧
      speed_to_bytes_per_second (String.mk (tok ++ "B/s".data)) = Except.ok q ∧
      speed_to_bytes_per_second (String.mk (tok ++ "/s".data)) = Except.ok q ∧
      speed_to_bytes_per_second (String.mk (tok ++ "MiB/s".data)) = Except.ok (q * 1024 ^ 2) ∧
      speed_to_bytes_per_second (String.mk (tok ++ "GiB/s".data)) = Except.ok (q * 1024 ^ 3) ∧
      speed_to_bytes_per_second (String.mk (tok ++ "TiB/s".data)) = Except.ok (q * 1024 ^ 4) := by
  intro tok q hne htok hq
  have hdd : ∀ c ∈ tok, isDigitDot c = true := fun c hc => isDigitDot_of_mem c (htok c hc)
  have hut : List.map charUpper tok = tok := upperL_digitDot tok htok
  refine ⟨?_, ?_, ?_, ?_, ?_, ?_, ?_, ?_⟩
  · have h := speed_concat_val tok "KiB/s".data "KIB/S".data q (tokne tok hne) hq
      (by rw [upperL, List.map_append, hut]; rfl)
      (munchWhile_all isDigitDot tok "KIB/S".data hdd
        (head_false_of_concrete isDigitDot 'K' _ rfl)) rfl
    simpa using h
  · have h := speed_concat_val tok "KB/s".data "KB/S".data q (tokne tok hne) hq
      (by rw [upperL, List.map_append, hut]; rfl)
      (munchWhile_all isDigitDot tok "KB/S".data hdd
        (head_false_of_concrete isDigitDot 'K' _ rfl)) rfl
    simpa using h
  · have h := speed_concat_val tok "K/s".data "K/S".data q (tokne tok hne) hq
      (by rw [upperL, List.map_append, hut]; rfl)
      (munchWhile_all isDigitDot tok "K/S".data hdd
        (head_false_of_concrete isDigitDot 'K' _ rfl)) rfl
    simpa using h
  · have h := speed_concat_val tok "B/s".data "B/S".data q (tokne tok hne) hq
      (by rw [upperL, List.map_append, hut]; rfl)
      (munchWhile_all isDigitDot tok "B/S".data hdd
        (head_false_of_concrete isDigitDot 'B' _ rfl)) rfl
    simpa [unitCandidates, isKMGT, unit_factor_speed, List.find?, startsL] using h
  · have h := speed_concat_val tok "/s".data "/S".data q (tokne tok hne) hq
      (by rw [upperL, List.map_append, hut]; rfl)
      (munchWhile_all isDigitDot tok "/S".data hdd
        (head_false_of_concrete isDigitDot '/' _ rfl)) rfl
    simpa [unitCandidates, isKMGT, unit_factor_speed, List.find?, startsL] using h
  · have h := speed_concat_val tok "MiB/s".data "MIB/S".data q (tokne tok hne) hq
      (by rw [upperL, List.map_append, hut]; rfl)
      (munchWhile_all isDigitDot tok "MIB/S".data hdd
        (head_false_of_concrete isDigitDot 'M' _ rfl)) rfl
    simpa using h
  · have h := speed_concat_val tok "GiB/s".data "GIB/S".data q (tokne tok hne) hq
      (by rw [upperL, List.map_append, hut]; rfl)
      (munchWhile_all isDigitDot tok "GIB/S".data hdd
        (head_false_of_concrete isDigitDot 'G' _ rfl)) rfl
    simpa using h
  · have h := speed_concat_val tok "TiB/s".data "TIB/S".data q (tokne tok hne) hq
      (by rw [upperL, List.map_append, hut]; rfl)
      (munchWhile_all isDigitDot tok "TIB/S".data hdd
        (head_false_of_concrete isDigitDot 'T' _ rfl)) rfl
    simpa using h

/-- Witness for C8: the numeric token `512`. -/
theorem C8_rate_unit_requires_B_witness :
    speed_to_bytes_per_second "512KiB/s" = Except.ok 524288 ∧
    speed_to_bytes_per_second "512K/s" = Except.ok 0 ∧
    speed_to_bytes_per_second "512/s" = Except.ok 512 := by
  have hq : pyFloatTok ['5', '1', '2'] = some 512 := by
    rw [pyFloatTok, if_pos (by decide)]
    norm_num [natOfDigits, List.takeWhile, List.dropWhile, List.foldl,
      show '5'.toNat = 53 from rfl, show '1'.toNat = 49 from rfl,
      show '2'.toNat = 50 from rfl, show '0'.toNat = 48 from rfl]
  have h := C8_rate_unit_requires_B ['5', '1', '2'] 512 (by decide) (by decide) hq
  refine ⟨?_, h.2.2.1, h.2.2.2.2.1⟩
  have h1 := h.1
  rw [show (524288 : ℚ) = 512 * 1024 by norm_num]
  exact h1

/-! ## Claim C9 -/

/-- Claim C9, counterexample: an interrupt while the first item's retrieval
is still in flight does NOT remove the partially-written artifact.  Nothing
is registered in `current_files_to_cleanup` before the glob that follows a
successful audio download (source line 575) — as the first conjunct shows,
even a whole failed download item registers nothing — so the handler's
cleanup pass, run with the empty registry, leaves the partial download file
on disk while still exiting with status 1. -/
theorem C9_counterexample_partial_artifact_kept :
    (process_item argsAudioR3 "/out" oracleDlFail "u1"
        (RunSt.init ["/out/temp_1000_1.webm.part"])).cleanup = [] ∧
    signal_handler_fs ["/out/temp_1000_1.webm.part"] [] = ["/out/temp_1000_1.webm.part"] ∧
    signal_handler_exit = 1 := by
  exact ⟨rfl, rfl, rfl⟩

/-- Claim C9 (amended): on interrupt the handler terminates the active
process group, prints the abort notice and exits immediately with the
non-zero status 1; of the files on disk it removes exactly those registered
in the cleanup list — a file is registered only after a successful audio
download, so the partially-written artifact of a retrieval still in progress
is not removed — and every path outside the registry (prior completed items'
outputs among them) is preserved unchanged. -/
theorem C9_cleanup_removes_only_registered :
    ∀ (fs cleanup : List String) (p : String),
      signal_handler_exit ≠ 0 ∧
      (p ∈ signal_handler_fs fs cleanup ↔ p ∈ fs ∧ p ∉ cleanup) := by
  intro fs cleanup p
  refine ⟨by decide, ?_⟩
  simp [signal_handler_fs, cleanup_incomplete_files, List.mem_filter]

/-! ## Claim C10 -/

/-- Claim C10: when a nonempty `-o` override is supplied, every item of the
batch gets the identical final output path — the destination joined with the
override — with the probed titles ignored entirely, so each later successful
item writes to the very same file as the earlier ones. -/
theorem C10_override_single_target :
    ∀ (dst : String) (a : Args) (t1 t2 ovr : String),
      a.output = some ovr → ovr ≠ "" →
      final_filepath dst a t1 = final_filepath dst a t2 ∧
      final_filepath dst a t1 = pathJoin dst ovr := by
  intro dst a t1 t2 ovr h hne
  simp [final_filepath, final_filename, h, hne]

/-- Witness for C10: two items with different titles under the override
`song` target the same path. -/
theorem C10_override_single_target_witness :
    final_filepath "/d" argsOverride "Title One" = final_filepath "/d" argsOverride "Title Two" ∧
    final_filepath "/d" argsOverride "Title One" = pathJoin "/d" "song" :=
  C10_override_single_target "/d" argsOverride "Title One" "Title Two" "song" rfl (by decide)
